import Mathlib

/-!
Verification of the BE backend API request pipeline: middleware registration
order, the rate-limiting middleware, the error-handling middleware and its
aggregation settings, and the Redis-backed database service.  Each definition
is a shallow embedding of the corresponding Python source in src/api.
-/

namespace BE

/-! ## Basic value types -/

/-- A Python exception value: its class name and its message.
Embeds the dynamic exception objects that flow through the handlers. -/
structure PyExc where
  name : String
  message : String
  deriving DecidableEq, Repr

/-- The payload carried in an HTTPException `detail` field or a JSONResponse
body.  The rate-limit rejection detail (rate_limiting.py lines 92-98) is a
dict with keys error, reset, limit, remaining, retry_after; other handlers use
a plain string. -/
structure RateLimitDetail where
  error : String
  reset : String
  limit : Nat
  remaining : Nat
  retry_after : Nat
  deriving DecidableEq, Repr

/-- Response body content as produced by the handlers in error_handling.py. -/
inductive Content where
  | detailStr (s : String)
  | detailRate (d : RateLimitDetail)
  | errorObj (ty msg : String)
  deriving DecidableEq, Repr

/-- A starlette/fastapi HTTPException: status code, detail payload, optional
headers.  rate_limiting.py line 90 constructs one without a headers argument,
so headers defaults to none. -/
structure HTTPException where
  status_code : Nat
  detail : Content
  headers : Option (List (String × String)) := none
  deriving DecidableEq, Repr

/-- A JSONResponse: status code, body content, and response headers. -/
structure JSONResponse where
  status_code : Nat
  content : Content
  headers : List (String × String) := []
  deriving DecidableEq, Repr

/-! ## Middleware registration order (src/api/middleware/__init__.py)

setup_middleware (lines 135-159) registers the nine middleware classes via
app.add_middleware, in the source order Metrics, Logging, Security,
Validation, Compression, ErrorHandling, RateLimit, Cache, Auth. -/

/-- The nine middleware stages of the pipeline. -/
inductive MwStage where
  | metrics
  | logging
  | security
  | validation
  | compression
  | errorHandling
  | rateLimiting
  | caching
  | auth
  deriving DecidableEq, Repr

/-- Starlette semantics of app.add_middleware: the new middleware class is
inserted at the head of the user-middleware list (user_middleware.insert(0, m)),
and build_middleware_stack wraps the app so that the head of that list is the
outermost layer.  Hence the middleware added last is outermost and sees the
request first. -/
def add_middleware (stack : List MwStage) (m : MwStage) : List MwStage :=
  m :: stack

/-- setup_middleware from src/api/middleware/__init__.py lines 135-159: the
nine add_middleware calls in their source order, applied to the empty stack.
The resulting list is ordered outermost-first. -/
def setup_middleware : List MwStage :=
  let s : List MwStage := []
  let s := add_middleware s .metrics
  let s := add_middleware s .logging
  let s := add_middleware s .security
  let s := add_middleware s .validation
  let s := add_middleware s .compression
  let s := add_middleware s .errorHandling
  let s := add_middleware s .rateLimiting
  let s := add_middleware s .caching
  let s := add_middleware s .auth
  s

/-- The order in which the stages execute on an inbound request: the
outermost middleware runs first, so this is exactly the outermost-first
stack produced by setup_middleware. -/
def executionOrder : List MwStage :=
  setup_middleware

/-- The execution order asserted by the spec (and by the numbered comments
inside setup_middleware itself): metrics first, authentication last. -/
def claimedExecutionOrder : List MwStage :=
  [.metrics, .logging, .security, .validation, .compression,
   .errorHandling, .rateLimiting, .caching, .auth]

/-! ## Structure of error_handling.py (src/api/middleware/error_handling.py)

The class body of ErrorHandlingMiddleware (lines 26-90) defines only two
methods.  The `async def dispatch` at line 126 is indented four spaces inside
the module-level function handle_database_error (line 114), after that
function's return statement at line 121, so it is unreachable dead code and
never becomes a method of any class. -/

/-- A Python statement, at the granularity needed to analyse
handle_database_error: a logging call, a return, or a nested function
definition. -/
inductive PyStmt where
  | logCall
  | returnResponse
  | defineFun (name : String)
  deriving DecidableEq, Repr

/-- The statement list of the module-level function handle_database_error
(error_handling.py lines 114-186): the logger.error call, the return of the
JSONResponse, and then the nested `async def dispatch` definition, in that
order (the nesting is determined by the 4-space indentation of line 126). -/
def handle_database_error_body : List PyStmt :=
  [.logCall, .returnResponse, .defineFun "dispatch"]

/-- Python execution of a straight-line function body: statements after the
first return never execute. -/
def executedStmts : List PyStmt → List PyStmt
  | [] => []
  | .returnResponse :: _ => [.returnResponse]
  | s :: rest => s :: executedStmts rest

/-- The names of the methods defined directly in the class body of
ErrorHandlingMiddleware (error_handling.py lines 26-90, at class-body
indentation). -/
def errorHandlingMiddlewareMethods : List String :=
  ["__init__", "_get_error_details"]

/-- Outcome of invoking a middleware dispatch on a request. -/
inductive DispatchResult where
  | response (r : JSONResponse)
  | raised (e : PyExc)
  deriving DecidableEq, Repr

/-- Starlette BaseHTTPMiddleware.dispatch default implementation: it raises
NotImplementedError; a subclass that does not override dispatch inherits
this. -/
def baseDispatch : DispatchResult :=
  .raised { name := "NotImplementedError", message := "" }

/-- The dispatch behaviour of ErrorHandlingMiddleware as the class actually
stands: since the class body defines no dispatch method, every request hits
the inherited BaseHTTPMiddleware.dispatch. -/
def errorHandlingDispatch : DispatchResult :=
  if "dispatch" ∈ errorHandlingMiddlewareMethods then
    .response { status_code := 200, content := .detailStr "unreachable" }
  else
    baseDispatch

/-! ## The module-level error handlers (error_handling.py lines 92-124) -/

/-- handle_http_exception (error_handling.py lines 92-101): logs and returns
a JSONResponse with the exception's status code and a body wrapping the
exception's detail; no headers are attached. -/
def handle_http_exception (exc : HTTPException) : JSONResponse :=
  { status_code := exc.status_code
    content := exc.detail
    headers := [] }

/-- handle_database_error (error_handling.py lines 114-124): logs the
exception internally and returns a fixed JSONResponse, status 500 with the
constant detail string; nothing from the exception reaches the response. -/
def handle_database_error (exc : PyExc) : JSONResponse :=
  { status_code := 500
    content := .detailStr "A database error occurred."
    headers := [] }

/-! ## Rate limiting (src/api/middleware/rate_limiting.py)

The middleware dispatch (lines 71-128) extracts the user identity, skips
exempt paths, calls RateLimitService.check_rate_limit, raises an
HTTPException 429 on denial, otherwise calls RateLimitService.log_request and
forwards the request, attaching X-RateLimit headers to the response.
RateLimitService itself is not under src/, so its two operations are
modelled from the spec below; the dispatch control flow, the key format and
the user-identity extraction are embedded from the source. -/

/-- An inbound HTTP request as seen by the rate-limiting middleware: its
Authorization header (if any), its path, and the client IP. -/
structure Request where
  authorization : Option String
  path : String
  ip : String
  deriving DecidableEq, Repr

/-- A response flowing back through the middleware: status and headers. -/
structure Response where
  status_code : Nat
  headers : List (String × String) := []
  deriving DecidableEq, Repr

/-- The limit_info dict returned by check_rate_limit: keys limit, remaining,
reset, window (rate_limiting.py lines 94-97 and 110-112 read exactly these). -/
structure LimitInfo where
  limit : Nat
  remaining : Nat
  reset : String
  window : Nat
  deriving DecidableEq, Repr

/-- Default window length in seconds, from src/api/config/redis.py line 21:
DEFAULT_RATE_LIMIT is 100 requests per minute. -/
def RATE_WINDOW : Nat := 60

/-- Default request limit per window, from src/api/config/redis.py line 21. -/
def RATE_LIMIT : Nat := 100

/-- get_rate_limit_key (rate_limiting.py lines 28-32): the composite
counter key user_id:endpoint:ip_address. -/
def get_rate_limit_key (user_id endpoint ip_address : String) : String :=
  user_id ++ ":" ++ endpoint ++ ":" ++ ip_address

/-- The shared rate-limit counter store: an availability flag (the Redis
connection may be down) and the per-key counters of the current window,
absent keys counting as zero.  resetAt is the stored window-expiry
timestamp string returned in limit_info. -/
structure RLStore where
  available : Bool
  counters : List (String × Nat)
  resetAt : String
  deriving DecidableEq, Repr

/-- Current counter value for a key, zero when absent. -/
def RLStore.count (st : RLStore) (key : String) : Nat :=
  (st.counters.lookup key).getD 0

/-- Store with the counter for a key incremented by one. -/
def RLStore.incr (st : RLStore) (key : String) : RLStore :=
  { st with counters := (key, st.count key + 1) :: st.counters.eraseP (fun p => p.1 == key) }

/-- Modelled from the spec: RateLimitService.check_rate_limit is not under
src/ (only its caller, the middleware dispatch, is).  Spec section 4.2:
fixed-window counting keyed by userId:endpoint:ip; a request is allowed
while the window count is below the limit, remaining is limit minus the
post-increment count, clamped at zero; if the shared store is unavailable
the engine fails open and allows the request.  The check itself reads the
counter and does not modify it (the separate log_request performs the
update, matching the two distinct service calls in dispatch). -/
def check_rate_limit (st : RLStore) (user_id endpoint ip_address : String) :
    Bool × LimitInfo :=
  if st.available = false then
    (true, { limit := RATE_LIMIT, remaining := RATE_LIMIT, reset := st.resetAt,
             window := RATE_WINDOW })
  else
    let key := get_rate_limit_key user_id endpoint ip_address
    let count := st.count key
    if count < RATE_LIMIT then
      (true, { limit := RATE_LIMIT, remaining := RATE_LIMIT - (count + 1),
               reset := st.resetAt, window := RATE_WINDOW })
    else
      (false, { limit := RATE_LIMIT, remaining := 0, reset := st.resetAt,
                window := RATE_WINDOW })

/-- Modelled from the spec: RateLimitService.log_request is not under src/.
Spec section 4.2: the store increments the counter for the current window
key; when the store is unavailable the engine degrades without failing the
request, so the store is left unchanged. -/
def log_request (st : RLStore) (user_id endpoint ip_address : String) : RLStore :=
  if st.available then st.incr (get_rate_limit_key user_id endpoint ip_address)
  else st

/-- Python str.startswith, computed structurally on the character lists of
the two strings. -/
def strHasStart (s start : String) : Bool :=
  start.data.isPrefixOf s.data

/-- Python str.split on a single separator character, computed structurally
on a character list: the groups of characters between occurrences of the
separator. -/
def splitChars (sep : Char) : List Char → List (List Char)
  | [] => [[]]
  | c :: rest =>
    match splitChars sep rest with
    | [] => [[]]
    | g :: gs => if c == sep then [] :: g :: gs else (c :: g) :: gs

/-- Python str.split(" ") as used at rate_limiting.py line 54. -/
def pySplit (s : String) (sep : Char) : List String :=
  (splitChars sep s.data).map String.mk

/-- Path exemption check (rate_limiting.py line 79): static files, public
assets and health checks bypass rate limiting entirely. -/
def isExemptPath (endpoint : String) : Bool :=
  strHasStart endpoint "/static/" || strHasStart endpoint "/public/" ||
    strHasStart endpoint "/health"

/-- get_user_id (rate_limiting.py lines 46-69): read the Authorization
header; if it is missing or does not start with Bearer and a space, return
none; otherwise take the token after the first space and verify it, the
verifier (AuthService.verify_token, not under src/) being passed in as an
oracle returning the username on success and none on any failure or
exception. -/
def get_user_id (verify : String → Option String) (req : Request) :
    Option String :=
  match req.authorization with
  | none => none
  | some auth_header =>
    if strHasStart auth_header "Bearer " then
      let token := (pySplit auth_header ' ').getD 1 ""
      verify token
    else
      none

/-- The store operations the middleware issues against the shared counter
store, in order: a quota check read, or a counter increment. -/
inductive StoreOp where
  | check (key : String)
  | incr (key : String)
  deriving DecidableEq, Repr

/-- Outcome of the rate-limiting dispatch: a forwarded response or a raised
HTTPException. -/
inductive RLOutcome where
  | response (r : Response)
  | httpError (e : HTTPException)
  deriving DecidableEq, Repr

/-- The HTTPException raised on rate-limit denial (rate_limiting.py lines
90-99): status 429, detail dict with error, reset, limit, remaining 0 and
retry_after fields, and no headers argument. -/
def rateLimitExceededException (limit_info : LimitInfo) : HTTPException :=
  { status_code := 429
    detail := .detailRate
      { error := "Too Many Requests"
        reset := limit_info.reset
        limit := limit_info.limit
        remaining := 0
        retry_after := limit_info.window }
    headers := none }

/-- Headers added to a successful response (rate_limiting.py lines 110-112). -/
def addRateLimitHeaders (resp : Response) (limit_info : LimitInfo) : Response :=
  { resp with headers :=
      resp.headers ++
        [("X-RateLimit-Limit", toString limit_info.limit),
         ("X-RateLimit-Remaining", toString limit_info.remaining),
         ("X-RateLimit-Reset", limit_info.reset)] }

/-- RateLimitMiddleware.dispatch (rate_limiting.py lines 71-128), with the
downstream pipeline abstracted as the response call_next would return.
Returns the outcome, the updated store, and the trace of store operations
issued.  Control flow from the source: resolve user id with the anonymous
fallback; pass exempt paths straight through; check the rate limit; on
denial raise the 429 HTTPException (re-raised unchanged by the except
HTTPException clause); otherwise log the request and attach the
X-RateLimit headers. -/
def dispatch (verify : String → Option String) (st : RLStore) (req : Request)
    (call_next : Response) : RLOutcome × RLStore × List StoreOp :=
  let user_id := (get_user_id verify req).getD "anonymous"
  let ip_address := req.ip
  let endpoint := req.path
  if isExemptPath endpoint then
    (.response call_next, st, [])
  else
    let key := get_rate_limit_key user_id endpoint ip_address
    let res := check_rate_limit st user_id endpoint ip_address
    if res.1 = false then
      (.httpError (rateLimitExceededException res.2), st, [.check key])
    else
      let st2 := log_request st user_id endpoint ip_address
      (.response (addRateLimitHeaders call_next res.2), st2,
        [.check key, .incr key])

/-! ## Concurrent interleavings of the rate-limit path

Each non-exempt allowed request performs, per the dispatch trace above, a
quota-check read followed later by a separate counter increment.  The race
model below runs several such requests on the same key under an arbitrary
interleaving of those two steps. -/

/-- Phase of one in-flight request on the counting path: it has not yet
performed its check, it has passed the check and has not yet logged its
increment, or it has finished (either denied, or incremented). -/
inductive ReqPhase where
  | beforeCheck
  | beforeIncr
  | finished
  deriving DecidableEq, Repr

/-- State of a race between several requests on one rate-limit key: the
shared counter, each request's phase, and the allow decision each request
observed. -/
structure RaceState where
  counter : Nat
  phases : List ReqPhase
  allowed : List Bool
  deriving DecidableEq, Repr

/-- One scheduler step: request i executes its next pending store
operation.  A check reads the shared counter and records the allow
decision (allowed while the count is below the limit, as in
check_rate_limit); an increment bumps the shared counter by one, as in
log_request.  A finished or out-of-range request leaves the state
unchanged. -/
def raceStep (limit : Nat) (s : RaceState) (i : Nat) : RaceState :=
  match s.phases.get? i with
  | some .beforeCheck =>
    if s.counter < limit then
      { s with phases := s.phases.set i .beforeIncr,
               allowed := s.allowed.set i true }
    else
      { s with phases := s.phases.set i .finished,
               allowed := s.allowed.set i false }
  | some .beforeIncr =>
    { s with counter := s.counter + 1, phases := s.phases.set i .finished }
  | _ => s

/-- Run a schedule (a list of request indices, each occurrence executing
that request's next step) from a race state. -/
def raceRun (limit : Nat) (s : RaceState) : List Nat → RaceState
  | [] => s
  | i :: rest => raceRun limit (raceStep limit s i) rest

/-- Initial race state for n fresh requests on an empty window. -/
def raceInit (n : Nat) : RaceState :=
  { counter := 0
    phases := List.replicate n .beforeCheck
    allowed := List.replicate n false }

/-! ## Error aggregation and notification (error_handling.py lines 42-48)

The settings are in src/: NOTIFY_ON_STATUS is the set containing 500 and
503, ERROR_AGGREGATION_WINDOW is 300 seconds, ERROR_NOTIFICATION_THRESHOLD
is 5, and error_counts is the per-type in-process tracking map.  The
methods that use them (_should_notify and _create_error_notification) are
elided from the source file, so the recording step is modelled from the
spec. -/

/-- Status codes that trigger notifications (error_handling.py line 43). -/
def NOTIFY_ON_STATUS : List Nat := [500, 503]

/-- Aggregation window in seconds (error_handling.py line 44). -/
def ERROR_AGGREGATION_WINDOW : Nat := 300

/-- Occurrences within the window needed to trigger a notification
(error_handling.py line 45). -/
def ERROR_NOTIFICATION_THRESHOLD : Nat := 5

/-- The error_counts tracking map (error_handling.py line 48): for each
error type, the timestamps of its recorded occurrences. -/
abbrev AggState : Type := List (String × List Nat)

/-- Recorded timestamps for an error type, empty when absent. -/
def AggState.times (s : AggState) (ty : String) : List Nat :=
  (List.lookup ty s).getD []

/-- State with the timestamp list of one error type replaced. -/
def AggState.setTimes (s : AggState) (ty : String) (ts : List Nat) : AggState :=
  (ty, ts) :: List.eraseP (fun p => p.1 == ty) s

/-- Drop records older than the aggregation window: a record at time t is
still inside the trailing window at time now while now - t is below the
window length. -/
def evictOld (now : Nat) (ts : List Nat) : List Nat :=
  ts.filter (fun t => now - t < ERROR_AGGREGATION_WINDOW)

/-- One recorded error event: its classification key, its classified
status code, and its arrival time in seconds. -/
structure AggEvent where
  ty : String
  status : Nat
  time : Nat
  deriving DecidableEq, Repr

/-- Modelled from the spec: the recording step of the error aggregation
engine (_should_notify and its callers are elided from
error_handling.py).  Spec section 4.3: each new error appends a
timestamped record and evicts records older than the window before
evaluating the threshold; a notification is emitted exactly at a
threshold crossing (the in-window count was below the threshold and
reaches it with this occurrence) and only when the status code is in the
notify-worthy set.  Returns the new state and whether a notification is
emitted. -/
def recordError (s : AggState) (e : AggEvent) : AggState × Bool :=
  let kept := evictOld e.time (s.times e.ty)
  let before := kept.length
  let notify := decide (e.status ∈ NOTIFY_ON_STATUS ∧
    ERROR_NOTIFICATION_THRESHOLD ≤ before + 1 ∧
    before < ERROR_NOTIFICATION_THRESHOLD)
  (s.setTimes e.ty (kept ++ [e.time]), notify)

/-- Run the aggregation engine over a list of events, accumulating the
number of notifications emitted. -/
def runAgg : AggState × Nat → List AggEvent → AggState × Nat
  | sn, [] => sn
  | (s, n), e :: rest =>
    let r := recordError s e
    runAgg (r.1, if r.2 then n + 1 else n) rest

/-- Events of a single error type and status at the given times. -/
def mkEvents (ty : String) (status : Nat) (ts : List Nat) : List AggEvent :=
  ts.map (fun t => { ty := ty, status := status, time := t })

/-! ## DatabaseService (src/api/service/database_service.py) -/

/-- Environment of one DatabaseService construction: whether the
connection-and-ping block inside the try of _init_redis raises (and which
exception), and whether later pings on the obtained connection succeed. -/
structure RedisEnv where
  initOutcome : Option PyExc
  pingOk : Bool
  deriving DecidableEq, Repr

/-- A live Redis connection handle; pingOk records whether its pings
currently succeed. -/
structure RedisConn where
  pingOk : Bool
  deriving DecidableEq, Repr

/-- Whether an exception is a redis.ConnectionError. -/
def isConnectionError (e : PyExc) : Bool :=
  e.name == "ConnectionError"

/-- Ping a connection: raises a ConnectionError when the store has become
unreachable. -/
def RedisConn.ping (c : RedisConn) : Except PyExc Unit :=
  if c.pingOk then .ok () else
    .error { name := "ConnectionError", message := "ping failed" }

/-- DatabaseService._init_redis (database_service.py lines 16-44): inside a
try block it creates the connection and pings it; except
redis.ConnectionError logs a warning and sets the connection to None;
except Exception logs an error and also sets it to None.  Both handlers
swallow the exception, so the function always returns normally. -/
def init_redis (env : RedisEnv) : Except PyExc (Option RedisConn) :=
  match env.initOutcome with
  | none => .ok (some { pingOk := env.pingOk })
  | some e =>
    if isConnectionError e then
      .ok none
    else
      .ok none

/-- The DatabaseService object: its _redis attribute. -/
structure DatabaseService where
  redis : Option RedisConn
  deriving DecidableEq, Repr

/-- DatabaseService.__init__ (database_service.py lines 11-14): sets _redis
to None and then calls _init_redis, whose result becomes the final _redis
attribute; any exception _init_redis let through would propagate out of the
constructor. -/
def DatabaseService.create (env : RedisEnv) : Except PyExc DatabaseService :=
  match init_redis env with
  | .ok r => .ok { redis := r }
  | .error e => .error e

/-- DatabaseService.is_redis_available (database_service.py lines 51-59):
False when there is no connection; otherwise ping inside a try, returning
True on success and False under the bare except.  The Except result records
whether the method itself raises. -/
def is_redis_available (s : DatabaseService) : Except PyExc Bool :=
  match s.redis with
  | none => .ok false
  | some conn =>
    match conn.ping with
    | .ok _ => .ok true
    | .error _ => .ok false

/-! ## Theorems -/

/-- C10: for every pair of exceptions passed to handle_database_error, the
client-visible response is identical, status 500 with the fixed detail body;
nothing derived from the exception appears in the response. -/
theorem handle_database_error_uniform_response :
    ∀ e1 e2 : PyExc,
      handle_database_error e1 = handle_database_error e2 ∧
      (handle_database_error e1).status_code = 500 ∧
      (handle_database_error e1).content =
        .detailStr "A database error occurred." ∧
      (handle_database_error e1).headers = [] := by
  intro e1 e2
  exact ⟨rfl, rfl, rfl, rfl⟩

/-- C2: the stages do not execute in the claimed order metrics first,
authentication last.  Because add_middleware prepends (last added is
outermost and runs first), the nine registrations of setup_middleware
produce exactly the reverse execution order: authentication first,
metrics last. -/
theorem middleware_execution_order_reversed :
    executionOrder =
      [.auth, .caching, .rateLimiting, .errorHandling, .compression,
       .validation, .security, .logging, .metrics] ∧
    executionOrder ≠ claimedExecutionOrder ∧
    executionOrder = claimedExecutionOrder.reverse := by
  decide

/-- C3: the async dispatch at error_handling.py line 126 is dead code nested
after the return inside handle_database_error, so ErrorHandlingMiddleware
defines no dispatch method and every request hits the inherited
BaseHTTPMiddleware.dispatch, which raises NotImplementedError instead of
catching downstream exceptions and producing the structured response with
the X-Error-ID and X-Error-Type headers. -/
theorem error_handling_dispatch_dead_code :
    PyStmt.defineFun "dispatch" ∈ handle_database_error_body ∧
    PyStmt.defineFun "dispatch" ∉ executedStmts handle_database_error_body ∧
    "dispatch" ∉ errorHandlingMiddlewareMethods ∧
    errorHandlingDispatch =
      .raised { name := "NotImplementedError", message := "" } := by
  decide

/-- C7: a request on a health-check or static-asset path is passed directly
to the next stage: the rate-limiting dispatch issues no store operation,
leaves the counter store unchanged, and returns the downstream response
untouched. -/
theorem exempt_paths_bypass_rate_limiting
    (verify : String → Option String) (st : RLStore) (req : Request)
    (call_next : Response) (h : isExemptPath req.path = true) :
    dispatch verify st req call_next = (.response call_next, st, []) := by
  unfold dispatch
  simp [h]

/-- Witness for C7 at the health-check path. -/
theorem exempt_paths_bypass_rate_limiting_witness :
    isExemptPath "/health" = true ∧
    dispatch (fun _ => none)
        { available := true, counters := [], resetAt := "r" }
        { authorization := none, path := "/health", ip := "1.2.3.4" }
        { status_code := 200 } =
      (.response { status_code := 200 },
       { available := true, counters := [], resetAt := "r" }, []) :=
  ⟨by decide,
   exempt_paths_bypass_rate_limiting (fun _ => none)
     { available := true, counters := [], resetAt := "r" }
     { authorization := none, path := "/health", ip := "1.2.3.4" }
     { status_code := 200 } (by decide)⟩

/-- C4: when the rate-limit store is unavailable the middleware fails open:
every request is answered with a forwarded response, never with a raised
HTTPException, and the store is left unchanged. -/
theorem rate_limit_store_outage_fails_open
    (verify : String → Option String) (st : RLStore) (req : Request)
    (call_next : Response) (h : st.available = false) :
    (∃ r, (dispatch verify st req call_next).1 = RLOutcome.response r) ∧
    (∀ e, (dispatch verify st req call_next).1 ≠ RLOutcome.httpError e) ∧
    (dispatch verify st req call_next).2.1 = st := by
  unfold dispatch
  by_cases hex : isExemptPath req.path
  · simp [hex]
  · simp [hex, check_rate_limit, log_request, h]

/-- Witness for C4 on a non-exempt request against a downed store. -/
theorem rate_limit_store_outage_fails_open_witness :
    (∃ r, (dispatch (fun _ => none)
        { available := false, counters := [], resetAt := "r" }
        { authorization := none, path := "/orders", ip := "1.2.3.4" }
        { status_code := 200 }).1 = RLOutcome.response r) ∧
    (∀ e, (dispatch (fun _ => none)
        { available := false, counters := [], resetAt := "r" }
        { authorization := none, path := "/orders", ip := "1.2.3.4" }
        { status_code := 200 }).1 ≠ RLOutcome.httpError e) ∧
    (dispatch (fun _ => none)
        { available := false, counters := [], resetAt := "r" }
        { authorization := none, path := "/orders", ip := "1.2.3.4" }
        { status_code := 200 }).2.1 =
      { available := false, counters := [], resetAt := "r" } :=
  rate_limit_store_outage_fails_open (fun _ => none)
    { available := false, counters := [], resetAt := "r" }
    { authorization := none, path := "/orders", ip := "1.2.3.4" }
    { status_code := 200 } (by decide)

/-- C8: a request without a valid bearer token (get_user_id returns none) on
a non-exempt path is rate limited under the composite key built from the
anonymous identity, the endpoint and the client IP: every store operation
the dispatch issues targets that key. -/
theorem anonymous_requests_rate_limited_per_ip_endpoint
    (verify : String → Option String) (st : RLStore) (req : Request)
    (call_next : Response) (hanon : get_user_id verify req = none)
    (hex : isExemptPath req.path = false) :
    ((dispatch verify st req call_next).2.2 =
        [.check (get_rate_limit_key "anonymous" req.path req.ip)] ∨
      (dispatch verify st req call_next).2.2 =
        [.check (get_rate_limit_key "anonymous" req.path req.ip),
         .incr (get_rate_limit_key "anonymous" req.path req.ip)]) := by
  unfold dispatch
  simp only [hanon, Option.getD_none, hex, Bool.false_eq_true, if_false]
  split
  · exact Or.inl rfl
  · exact Or.inr rfl

/-- Witness for C8: a malformed Authorization header yields the anonymous
key with the literal anonymous:endpoint:ip format. -/
theorem anonymous_requests_rate_limited_per_ip_endpoint_witness :
    get_user_id (fun _ => none)
        { authorization := some "Basic xyz", path := "/orders",
          ip := "1.2.3.4" } = none ∧
    get_rate_limit_key "anonymous" "/orders" "1.2.3.4" =
      "anonymous:/orders:1.2.3.4" ∧
    (((dispatch (fun _ => none)
          { available := true, counters := [], resetAt := "r" }
          { authorization := some "Basic xyz", path := "/orders",
            ip := "1.2.3.4" }
          { status_code := 200 }).2.2 =
        [.check (get_rate_limit_key "anonymous" "/orders" "1.2.3.4")] ∨
      (dispatch (fun _ => none)
          { available := true, counters := [], resetAt := "r" }
          { authorization := some "Basic xyz", path := "/orders",
            ip := "1.2.3.4" }
          { status_code := 200 }).2.2 =
        [.check (get_rate_limit_key "anonymous" "/orders" "1.2.3.4"),
         .incr (get_rate_limit_key "anonymous" "/orders" "1.2.3.4")])) :=
  ⟨by decide, by decide,
   anonymous_requests_rate_limited_per_ip_endpoint (fun _ => none)
     { available := true, counters := [], resetAt := "r" }
     { authorization := some "Basic xyz", path := "/orders", ip := "1.2.3.4" }
     { status_code := 200 } (by decide) (by decide)⟩

/-- C1 (counterexample): the check-then-increment of the rate-limit path is
not one atomic operation.  A single dispatch issues the quota check and the
counter increment as two separate store operations, and with limit 1 three
requests racing on the same key can all pass their checks before any
increment runs: all three are allowed and the shared counter reaches 3,
exceeding limit + 1 = 2. -/
theorem rate_limit_race_exceeds_limit_plus_one :
    (raceRun 1 (raceInit 3) [0, 1, 2, 0, 1, 2]).allowed =
      [true, true, true] ∧
    (raceRun 1 (raceInit 3) [0, 1, 2, 0, 1, 2]).counter = 3 ∧
    1 + 1 < 3 ∧
    (dispatch (fun _ => none)
        { available := true, counters := [], resetAt := "r" }
        { authorization := none, path := "/orders", ip := "1.1.1.1" }
        { status_code := 200 }).2.2 =
      [.check "anonymous:/orders:1.1.1.1",
       .incr "anonymous:/orders:1.1.1.1"] := by
  decide

/-- C1 (amended): on the counting path an allowed request performs the
quota check and the counter increment as two separate store operations in
sequence (check_rate_limit, then log_request), not as one atomic
check-and-consume. -/
theorem rate_limit_check_then_increment_separate
    (verify : String → Option String) (st : RLStore) (req : Request)
    (call_next : Response) (hex : isExemptPath req.path = false)
    (hall : (check_rate_limit st ((get_user_id verify req).getD "anonymous")
        req.path req.ip).1 = true) :
    (dispatch verify st req call_next).2.2 =
      [.check (get_rate_limit_key ((get_user_id verify req).getD "anonymous")
          req.path req.ip),
       .incr (get_rate_limit_key ((get_user_id verify req).getD "anonymous")
          req.path req.ip)] := by
  unfold dispatch
  simp [hex, hall]

/-- Witness for the amended C1 on a fresh store. -/
theorem rate_limit_check_then_increment_separate_witness :
    isExemptPath "/orders" = false ∧
    (dispatch (fun _ => none)
        { available := true, counters := [], resetAt := "r" }
        { authorization := none, path := "/orders", ip := "2.2.2.2" }
        { status_code := 200 }).2.2 =
      [.check (get_rate_limit_key
          ((get_user_id (fun _ => none)
              { authorization := none, path := "/orders",
                ip := "2.2.2.2" }).getD "anonymous")
          "/orders" "2.2.2.2"),
       .incr (get_rate_limit_key
          ((get_user_id (fun _ => none)
              { authorization := none, path := "/orders",
                ip := "2.2.2.2" }).getD "anonymous")
          "/orders" "2.2.2.2")] :=
  ⟨by decide,
   rate_limit_check_then_increment_separate (fun _ => none)
     { available := true, counters := [], resetAt := "r" }
     { authorization := none, path := "/orders", ip := "2.2.2.2" }
     { status_code := 200 } (by decide) (by decide)⟩

/-- C6 (counterexample): a denied request yields the raised HTTPException
with status 429 and the detail body fields, but the exception carries no
headers and the JSON response produced for it contains no Retry-After
header, refuting the claimed Retry-After header on rejection. -/
theorem rate_limit_rejection_lacks_retry_after :
    (dispatch (fun _ => none)
        { available := true,
          counters := [("anonymous:/orders:9.9.9.9", 100)],
          resetAt := "2025-06-03 13:00:00" }
        { authorization := none, path := "/orders", ip := "9.9.9.9" }
        { status_code := 200 }).1 =
      RLOutcome.httpError
        { status_code := 429,
          detail := .detailRate
            { error := "Too Many Requests",
              reset := "2025-06-03 13:00:00", limit := 100,
              remaining := 0, retry_after := 60 },
          headers := none } ∧
    List.lookup "Retry-After"
        (handle_http_exception
          { status_code := 429,
            detail := .detailRate
              { error := "Too Many Requests",
                reset := "2025-06-03 13:00:00", limit := 100,
                remaining := 0, retry_after := 60 },
            headers := none }).headers = none := by
  decide

/-- C6 (amended): every rejected request raises an HTTPException of status
429 whose detail carries the error, reset, limit, remaining 0 and
retry_after fields; the exception is raised with no headers, so the
rejection carries no Retry-After header, and the store is not updated. -/
theorem rate_limit_rejection_shape
    (verify : String → Option String) (st : RLStore) (req : Request)
    (call_next : Response) (hex : isExemptPath req.path = false)
    (hden : (check_rate_limit st ((get_user_id verify req).getD "anonymous")
        req.path req.ip).1 = false) :
    (dispatch verify st req call_next).1 =
      RLOutcome.httpError (rateLimitExceededException
        (check_rate_limit st ((get_user_id verify req).getD "anonymous")
          req.path req.ip).2) ∧
    (∀ info : LimitInfo,
      (rateLimitExceededException info).status_code = 429 ∧
      (rateLimitExceededException info).headers = none ∧
      (rateLimitExceededException info).detail = .detailRate
        { error := "Too Many Requests", reset := info.reset,
          limit := info.limit, remaining := 0,
          retry_after := info.window }) ∧
    (dispatch verify st req call_next).2.1 = st := by
  refine ⟨?_, fun info => ⟨rfl, rfl, rfl⟩, ?_⟩
  · unfold dispatch
    simp [hex, hden]
  · unfold dispatch
    simp [hex, hden]

/-- Witness for the amended C6 on a store whose window count has reached
the limit. -/
theorem rate_limit_rejection_shape_witness :
    isExemptPath "/orders" = false ∧
    (check_rate_limit
        { available := true,
          counters := [("anonymous:/orders:9.9.9.9", 100)],
          resetAt := "rs" }
        ((get_user_id (fun _ => none)
            { authorization := none, path := "/orders",
              ip := "9.9.9.9" }).getD "anonymous")
        "/orders" "9.9.9.9").1 = false ∧
    (dispatch (fun _ => none)
        { available := true,
          counters := [("anonymous:/orders:9.9.9.9", 100)],
          resetAt := "rs" }
        { authorization := none, path := "/orders", ip := "9.9.9.9" }
        { status_code := 200 }).1 =
      RLOutcome.httpError (rateLimitExceededException
        (check_rate_limit
          { available := true,
            counters := [("anonymous:/orders:9.9.9.9", 100)],
            resetAt := "rs" }
          ((get_user_id (fun _ => none)
              { authorization := none, path := "/orders",
                ip := "9.9.9.9" }).getD "anonymous")
          "/orders" "9.9.9.9").2) :=
  ⟨by decide, by decide,
   (rate_limit_rejection_shape (fun _ => none)
     { available := true,
       counters := [("anonymous:/orders:9.9.9.9", 100)],
       resetAt := "rs" }
     { authorization := none, path := "/orders", ip := "9.9.9.9" }
     { status_code := 200 } (by decide) (by decide)).1⟩

/-- C9: DatabaseService construction always returns normally, whatever the
Redis environment does: when initialization raises, the connection
attribute ends up None and is_redis_available answers false; when a later
ping fails on a live connection, is_redis_available answers false without
raising. -/
theorem database_service_init_never_raises (env : RedisEnv) :
    (∃ s, DatabaseService.create env = .ok s) ∧
    (∀ e, env.initOutcome = some e →
      DatabaseService.create env = .ok { redis := none } ∧
      is_redis_available { redis := none } = .ok false) ∧
    (∀ c : RedisConn, c.pingOk = false →
      is_redis_available { redis := some c } = .ok false) := by
  refine ⟨?_, ?_, ?_⟩
  · cases h : env.initOutcome with
    | none =>
      exact ⟨{ redis := some { pingOk := env.pingOk } },
        by simp [DatabaseService.create, init_redis, h]⟩
    | some e =>
      exact ⟨{ redis := none },
        by simp [DatabaseService.create, init_redis, h]⟩
  · intro e he
    exact ⟨by simp [DatabaseService.create, init_redis, he], rfl⟩
  · intro c hc
    simp [is_redis_available, RedisConn.ping, hc]

/-- Witness for C9: a refused connection at startup and a failing later
ping. -/
theorem database_service_init_never_raises_witness :
    (∃ s, DatabaseService.create
        { initOutcome := some { name := "ConnectionError",
                                message := "refused" },
          pingOk := false } = .ok s) ∧
    DatabaseService.create
        { initOutcome := some { name := "ConnectionError",
                                message := "refused" },
          pingOk := false } = .ok { redis := none } ∧
    is_redis_available { redis := none } = .ok false ∧
    is_redis_available { redis := some { pingOk := false } } = .ok false :=
  ⟨(database_service_init_never_raises
      { initOutcome := some { name := "ConnectionError",
                              message := "refused" },
        pingOk := false }).1,
   ((database_service_init_never_raises
      { initOutcome := some { name := "ConnectionError",
                              message := "refused" },
        pingOk := false }).2.1 _ rfl).1,
   ((database_service_init_never_raises
      { initOutcome := some { name := "ConnectionError",
                              message := "refused" },
        pingOk := false }).2.1 _ rfl).2,
   (database_service_init_never_raises
      { initOutcome := some { name := "ConnectionError",
                              message := "refused" },
        pingOk := false }).2.2 { pingOk := false } rfl⟩

/-! ### Aggregation-engine lemmas -/

/-- mkEvents on no timestamps. -/
theorem mkEvents_nil (ty : String) (status : Nat) :
    mkEvents ty status [] = [] := rfl

/-- mkEvents distributes over cons. -/
theorem mkEvents_cons (ty : String) (status t : Nat) (ts : List Nat) :
    mkEvents ty status (t :: ts) =
      { ty := ty, status := status, time := t } :: mkEvents ty status ts := rfl

/-- mkEvents distributes over append. -/
theorem mkEvents_append (ty : String) (status : Nat) (l1 l2 : List Nat) :
    mkEvents ty status (l1 ++ l2) =
      mkEvents ty status l1 ++ mkEvents ty status l2 := by
  simp [mkEvents]

/-- runAgg on no events. -/
theorem runAgg_nil (sn : AggState × Nat) : runAgg sn [] = sn := rfl

/-- runAgg unfolds one recording step. -/
theorem runAgg_cons (s : AggState) (n : Nat) (e : AggEvent)
    (evs : List AggEvent) :
    runAgg (s, n) (e :: evs) =
      runAgg ((recordError s e).1,
        if (recordError s e).2 then n + 1 else n) evs := rfl

/-- runAgg splits over appended event lists. -/
theorem runAgg_append (sn : AggState × Nat) (l1 l2 : List AggEvent) :
    runAgg sn (l1 ++ l2) = runAgg (runAgg sn l1) l2 := by
  induction l1 generalizing sn with
  | nil => rfl
  | cons e rest ih =>
    obtain ⟨s, n⟩ := sn
    rw [List.cons_append, runAgg_cons, runAgg_cons]
    exact ih _

/-- Lookup of the tracked timestamps in a single-type aggregation state. -/
theorem times_single (ty : String) (acc : List Nat) :
    AggState.times [(ty, acc)] ty = acc := by
  simp [AggState.times, List.lookup]

/-- Replacing the timestamps of the only tracked type. -/
theorem setTimes_single (ty : String) (acc ts : List Nat) :
    AggState.setTimes [(ty, acc)] ty ts = [(ty, ts)] := by
  simp [AggState.setTimes, List.eraseP_cons]

/-- Recording a first error of a type installs a single fresh record and
emits no notification (the threshold of five is not reached by one
occurrence). -/
theorem recordError_empty (ty : String) (status t : Nat) :
    recordError ([] : AggState) { ty := ty, status := status, time := t } =
      ([(ty, [t])], false) := by
  simp [recordError, AggState.times, AggState.setTimes, evictOld,
    ERROR_NOTIFICATION_THRESHOLD, List.lookup]

/-- Recording when every tracked record is still inside the window: nothing
is evicted, the record is appended, and a notification fires exactly at the
threshold crossing for notify-worthy statuses. -/
theorem recordError_single (ty : String) (status t : Nat) (acc : List Nat)
    (hkeep : ∀ x ∈ acc, t - x < ERROR_AGGREGATION_WINDOW) :
    recordError [(ty, acc)] { ty := ty, status := status, time := t } =
      ([(ty, acc ++ [t])],
        decide (status ∈ NOTIFY_ON_STATUS ∧
          ERROR_NOTIFICATION_THRESHOLD ≤ acc.length + 1 ∧
          acc.length < ERROR_NOTIFICATION_THRESHOLD)) := by
  have hfilter : evictOld t acc = acc := by
    apply List.filter_eq_self.mpr
    intro a ha
    simpa using hkeep a ha
  simp [recordError, times_single, setTimes_single, hfilter]

/-- Recording when every tracked record has aged past the window: all are
evicted, the new record stands alone, and no notification fires. -/
theorem recordError_stale (ty : String) (status u : Nat) (acc : List Nat)
    (hstale : ∀ x ∈ acc, ¬ u - x < ERROR_AGGREGATION_WINDOW) :
    recordError [(ty, acc)] { ty := ty, status := status, time := u } =
      ([(ty, [u])], false) := by
  have hfilter : evictOld u acc = [] := by
    apply List.filter_eq_nil_iff.mpr
    intro a ha
    simpa using hstale a ha
  simp [recordError, times_single, setTimes_single, hfilter,
    ERROR_NOTIFICATION_THRESHOLD]

/-- Running the engine over events of one type that all fall inside one
window (together with everything already tracked): no record is ever
evicted, all events are appended, and the total notification count rises by
one exactly when the tracked count crosses the threshold during the run and
the status is notify-worthy. -/
theorem runAgg_window (ty : String) (status lo : Nat) (ts : List Nat) :
    ∀ (acc : List Nat) (n0 : Nat),
      (∀ x ∈ acc, lo ≤ x ∧ x < lo + ERROR_AGGREGATION_WINDOW) →
      (∀ x ∈ ts, lo ≤ x ∧ x < lo + ERROR_AGGREGATION_WINDOW) →
      runAgg ([(ty, acc)], n0) (mkEvents ty status ts) =
        ([(ty, acc ++ ts)],
          n0 + (if status ∈ NOTIFY_ON_STATUS ∧
              acc.length < ERROR_NOTIFICATION_THRESHOLD ∧
              ERROR_NOTIFICATION_THRESHOLD ≤ acc.length + ts.length
            then 1 else 0)) := by
  induction ts with
  | nil =>
    intro acc n0 _ _
    rw [mkEvents_nil, runAgg_nil, List.append_nil, if_neg]
    · simp
    · rintro ⟨-, h1, h2⟩
      simp only [List.length_nil] at h2
      omega
  | cons t rest ih =>
    intro acc n0 hacc hts
    have ht : lo ≤ t ∧ t < lo + ERROR_AGGREGATION_WINDOW :=
      hts t (List.mem_cons_self t rest)
    have hrest : ∀ x ∈ rest, lo ≤ x ∧ x < lo + ERROR_AGGREGATION_WINDOW :=
      fun x hx => hts x (List.mem_cons_of_mem t hx)
    have hkeep : ∀ x ∈ acc, t - x < ERROR_AGGREGATION_WINDOW := by
      intro x hx
      have := hacc x hx
      omega
    have hacc2 : ∀ x ∈ acc ++ [t],
        lo ≤ x ∧ x < lo + ERROR_AGGREGATION_WINDOW := by
      intro x hx
      rcases List.mem_append.mp hx with h | h
      · exact hacc x h
      · rw [List.mem_singleton] at h
        subst h
        exact ht
    rw [mkEvents_cons, runAgg_cons,
      recordError_single ty status t acc hkeep]
    simp only [decide_eq_true_eq]
    rw [ih (acc ++ [t]) _ hacc2 hrest]
    simp only [Prod.mk.injEq, List.append_assoc, List.singleton_append,
      List.length_append, List.length_singleton, List.length_cons,
      List.length_nil]
    refine ⟨trivial, ?_⟩
    by_cases hs : status ∈ NOTIFY_ON_STATUS
    · simp only [hs, true_and]
      split_ifs <;> omega
    · simp [hs]

/-- Running the engine over a fresh batch of one-type events after every
previously tracked record has aged out: the first event evicts the stale
records, and the batch emits exactly one notification when it alone meets
the threshold with a notify-worthy status. -/
theorem runAgg_fresh (ty : String) (status lo2 : Nat) (acc ts2 : List Nat)
    (n0 : Nat)
    (hstale : ∀ x ∈ acc, x + ERROR_AGGREGATION_WINDOW ≤ lo2)
    (hts2 : ∀ x ∈ ts2, lo2 ≤ x ∧ x < lo2 + ERROR_AGGREGATION_WINDOW) :
    (runAgg ([(ty, acc)], n0) (mkEvents ty status ts2)).2 =
      n0 + (if status ∈ NOTIFY_ON_STATUS ∧
          ERROR_NOTIFICATION_THRESHOLD ≤ ts2.length then 1 else 0) := by
  cases ts2 with
  | nil =>
    rw [mkEvents_nil, runAgg_nil, if_neg]
    · simp
    · rintro ⟨-, h⟩
      have h5 : (0:Nat) < ERROR_NOTIFICATION_THRESHOLD := by decide
      simp only [List.length_nil] at h
      omega
  | cons u rest =>
    have hu : lo2 ≤ u ∧ u < lo2 + ERROR_AGGREGATION_WINDOW :=
      hts2 u (List.mem_cons_self u rest)
    have hrest : ∀ x ∈ rest, lo2 ≤ x ∧ x < lo2 + ERROR_AGGREGATION_WINDOW :=
      fun x hx => hts2 x (List.mem_cons_of_mem u hx)
    have hst : ∀ x ∈ acc, ¬ u - x < ERROR_AGGREGATION_WINDOW := by
      intro x hx
      have := hstale x hx
      omega
    have hsingle : ∀ x ∈ [u], lo2 ≤ x ∧ x < lo2 + ERROR_AGGREGATION_WINDOW := by
      intro x hx
      rw [List.mem_singleton] at hx
      subst hx
      exact hu
    rw [mkEvents_cons, runAgg_cons, recordError_stale ty status u acc hst]
    simp only [Bool.false_eq_true, if_false]
    rw [runAgg_window ty status lo2 rest [u] n0 hsingle hrest]
    simp only [List.length_singleton, List.length_cons, List.length_nil]
    by_cases hs : status ∈ NOTIFY_ON_STATUS
    · simp only [hs, true_and]
      have h15 : (1:Nat) < ERROR_NOTIFICATION_THRESHOLD := by decide
      split_ifs <;> omega
    · simp [hs]

/-- C5: for a single error type, recording at least five occurrences of a
500-classified error inside one aggregation window emits exactly one
notification (at the threshold crossing, none for later occurrences in the
same window); a second batch meeting the threshold after the window has
fully rolled past the first emits exactly one more; and the same
occurrences with a status outside the notify set emit none. -/
theorem error_notification_edge_triggered (ty : String) (lo1 lo2 : Nat)
    (ts1 ts2 : List Nat)
    (h1 : ∀ x ∈ ts1, lo1 ≤ x ∧ x < lo1 + ERROR_AGGREGATION_WINDOW)
    (h2 : ∀ x ∈ ts2, lo2 ≤ x ∧ x < lo2 + ERROR_AGGREGATION_WINDOW)
    (hgap : ∀ x ∈ ts1, x + ERROR_AGGREGATION_WINDOW ≤ lo2)
    (hlen1 : ERROR_NOTIFICATION_THRESHOLD ≤ ts1.length)
    (hlen2 : ERROR_NOTIFICATION_THRESHOLD ≤ ts2.length) :
    (runAgg ([], 0) (mkEvents ty 500 ts1)).2 = 1 ∧
    (runAgg ([], 0) (mkEvents ty 500 (ts1 ++ ts2))).2 = 2 ∧
    (runAgg ([], 0) (mkEvents ty 400 ts1)).2 = 0 := by
  obtain ⟨t, rest, rfl⟩ : ∃ t rest, ts1 = t :: rest := by
    cases ts1 with
    | nil =>
      have h5 : (0:Nat) < ERROR_NOTIFICATION_THRESHOLD := by decide
      simp only [List.length_nil] at hlen1
      omega
    | cons a l => exact ⟨a, l, rfl⟩
  have ht1 : lo1 ≤ t ∧ t < lo1 + ERROR_AGGREGATION_WINDOW :=
    h1 t (List.mem_cons_self t rest)
  have hrest1 : ∀ x ∈ rest, lo1 ≤ x ∧ x < lo1 + ERROR_AGGREGATION_WINDOW :=
    fun x hx => h1 x (List.mem_cons_of_mem t hx)
  have hsingle : ∀ x ∈ [t], lo1 ≤ x ∧ x < lo1 + ERROR_AGGREGATION_WINDOW := by
    intro x hx
    rw [List.mem_singleton] at hx
    subst hx
    exact ht1
  have hlen : ERROR_NOTIFICATION_THRESHOLD ≤ rest.length + 1 := by
    simpa using hlen1
  have hbatch : ∀ status : Nat,
      runAgg (([] : AggState), 0) (mkEvents ty status (t :: rest)) =
        ([(ty, t :: rest)],
          if status ∈ NOTIFY_ON_STATUS ∧
              ERROR_NOTIFICATION_THRESHOLD ≤ rest.length + 1
            then 1 else 0) := by
    intro status
    rw [mkEvents_cons, runAgg_cons, recordError_empty]
    simp only [Bool.false_eq_true, if_false]
    rw [runAgg_window ty status lo1 rest [t] 0 hsingle hrest1]
    simp only [List.singleton_append, List.length_singleton, Nat.zero_add]
    congr 1
    by_cases hs : status ∈ NOTIFY_ON_STATUS
    · simp only [hs, true_and]
      have h15 : (1:Nat) < ERROR_NOTIFICATION_THRESHOLD := by decide
      split_ifs <;> omega
    · simp [hs]
  refine ⟨?_, ?_, ?_⟩
  · rw [hbatch 500, if_pos ⟨by decide, hlen⟩]
  · rw [mkEvents_append, runAgg_append, hbatch 500,
      if_pos ⟨by decide, hlen⟩,
      runAgg_fresh ty 500 lo2 (t :: rest) ts2 1 hgap h2,
      if_pos ⟨by decide, hlen2⟩]
  · rw [hbatch 400, if_neg]
    rintro ⟨h, -⟩
    exact absurd h (by decide)

/-- Witness for C5: six occurrences at seconds 0 through 5 (the sixth emits
nothing extra), then five more after the window has elapsed. -/
theorem error_notification_edge_triggered_witness :
    (runAgg ([], 0) (mkEvents "ValueError" 500 [0, 1, 2, 3, 4, 5])).2 = 1 ∧
    (runAgg ([], 0) (mkEvents "ValueError" 500
        ([0, 1, 2, 3, 4, 5] ++ [305, 306, 307, 308, 309]))).2 = 2 ∧
    (runAgg ([], 0) (mkEvents "ValueError" 400 [0, 1, 2, 3, 4, 5])).2 = 0 :=
  error_notification_edge_triggered "ValueError" 0 305
    [0, 1, 2, 3, 4, 5] [305, 306, 307, 308, 309]
    (by intro x hx; fin_cases hx <;> exact ⟨by decide, by decide⟩)
    (by intro x hx; fin_cases hx <;> exact ⟨by decide, by decide⟩)
    (by intro x hx; fin_cases hx <;> decide)
    (by decide) (by decide)

end BE
